import Mathlib

/-!
Verification of the dataset normalization & aggregation engine of the
OSF Institutions dashboard repository (src/dashboard.py, src/dashboard_v4.py,
src/dashboard_v6.py).  The Python sources are shallowly embedded below:
strings are `List Char`/`String`, Python floats are modelled as exact
rationals extended with NaN and signed infinity (`PyFloat`), pandas cells
read with `dtype=str` are `String`s (v4/v6, which apply `fillna("")`) or
`Option String` (dashboard.py, which does not), and every fallible Python
operation is an `Option`/`Except`.  Only the ASCII fragment of Python's
case folding and whitespace handling is modelled; all inputs exercised by
the theorems are ASCII.
-/

namespace Py

/-- Python whitespace (ASCII fragment), as recognised by `str.strip` and
`float()`. -/
def isSpace (c : Char) : Bool :=
  c = ' ' ∨ c = '\t' ∨ c = '\n' ∨ c = '\r' ∨ c = '\x0b' ∨ c = '\x0c'

/-- ASCII lower-casing, the fragment of Python `str.lower` used by the
dashboard code. -/
def lowerChar (c : Char) : Char :=
  if 'A' ≤ c ∧ c ≤ 'Z' then Char.ofNat (c.toNat + 32) else c

/-- Lower-case a character list. -/
def lowerL (l : List Char) : List Char := l.map lowerChar

/-- Strip leading Python whitespace. -/
def ltrim (l : List Char) : List Char := l.dropWhile isSpace

/-- Strip trailing Python whitespace. -/
def rtrim (l : List Char) : List Char := l.rdropWhile isSpace

/-- Python `str.strip()` on a character list. -/
def trim (l : List Char) : List Char := rtrim (ltrim l)

/-- Python `str.strip()` on a `String`. -/
def strip (s : String) : String := String.mk (trim s.data)

/-- Python `str.lower()` on a `String` (ASCII fragment). -/
def lower (s : String) : String := String.mk (lowerL s.data)

/-- Case-insensitive prefix test: the pattern (already lower-case) is
compared against the lower-cased text, as done by `re.IGNORECASE`
prefix patterns. -/
def ciIsPrefix : List Char → List Char → Bool
  | [], _ => true
  | _ :: _, [] => false
  | p :: ps, c :: cs => (lowerChar c = p) && ciIsPrefix ps cs

/-- Boolean substring test implementing Python's `needle in haystack`. -/
def isSub (needle hay : List Char) : Bool :=
  match hay with
  | [] => needle.isEmpty
  | _ :: t => needle.isPrefixOf hay || isSub needle t

/-- Python substring containment on `String`s (`a in b`). -/
def strIn (needle hay : String) : Bool := isSub needle.data hay.data

/-- The proposition that `n` occurs contiguously inside `h`. -/
def SubstrOf (n h : String) : Prop := ∃ p q, h.data = p ++ n.data ++ q

end Py

/-! ## Exact rationals

A small kernel-computable rational type (numerator, positive
denominator, always normalized by construction), used to give Python
float values exact semantics. -/

structure Frac where
  num : Int
  den : Int
deriving DecidableEq, Repr

namespace Frac

/-- Normalized construction from a numerator and a non-zero
denominator. -/
def mk0 (n d : Int) : Frac :=
  let sn := if d < 0 then -n else n
  let sd := if d < 0 then -d else d
  let g : Int := (Int.gcd sn sd : Int)
  if g = 0 then ⟨0, 1⟩ else ⟨sn / g, sd / g⟩

/-- Embedding of the integers. -/
def ofInt (n : Int) : Frac := ⟨n, 1⟩

instance (n : Nat) : OfNat Frac n := ⟨ofInt n⟩

def neg (a : Frac) : Frac := ⟨-a.num, a.den⟩

def add (a b : Frac) : Frac := mk0 (a.num * b.den + b.num * a.den) (a.den * b.den)

def sub (a b : Frac) : Frac := add a (neg b)

def mul (a b : Frac) : Frac := mk0 (a.num * b.num) (a.den * b.den)

def div (a b : Frac) : Frac := mk0 (a.num * b.den) (a.den * b.num)

/-- Natural power by iterated multiplication. -/
def pw (a : Frac) : Nat → Frac
  | 0 => ofInt 1
  | n + 1 => mul (pw a n) a

/-- Integer power. -/
def zpow (a : Frac) (z : Int) : Frac :=
  if 0 ≤ z then pw a z.toNat else div (ofInt 1) (pw a (-z).toNat)

/-- Strict order via cross-multiplication (denominators positive). -/
def lt (a b : Frac) : Prop := a.num * b.den < b.num * a.den

instance (a b : Frac) : Decidable (lt a b) := by unfold lt; infer_instance

/-- Floor of a fraction. -/
def floor (a : Frac) : Int := Int.fdiv a.num a.den

end Frac

/-! ## Python `float()` -/

/-- A Python float value: NaN, a signed infinity, or a finite value
(modelled as an exact rational; the dashboard only ever compares small
decimal values, where binary rounding is irrelevant to the claims). -/
inductive PyFloat where
  | nan : PyFloat
  | pinf : Bool → PyFloat
  | fin : Frac → PyFloat
deriving DecidableEq, Repr

namespace PyFloat

/-- Python `digitpart` grammar: `digit (["_"] digit)*`. -/
def digitsOk : List Char → Bool
  | [] => false
  | [c] => c.isDigit
  | c :: '_' :: rest => c.isDigit && digitsOk rest
  | c :: c2 :: rest => c.isDigit && digitsOk (c2 :: rest)

/-- Decimal value of a digit string after removing underscores. -/
def digitsVal (l : List Char) : Nat :=
  (l.filter (fun c => !(c = '_'))).foldl (fun a c => a * 10 + (c.toNat - 48)) 0

/-- Number of true digits (underscores removed). -/
def digitsLen (l : List Char) : Nat := (l.filter (fun c => !(c = '_'))).length

/-- Split a list at the first character satisfying `p`, dropping the
separator; `none` when no separator occurs. -/
def splitAtFirst (p : Char → Bool) : List Char → List Char × Option (List Char)
  | [] => ([], none)
  | c :: t =>
    if p c then ([], some t)
    else
      let r := splitAtFirst p t
      (c :: r.1, r.2)

/-- Well-formedness of a Python float mantissa: `digitpart`, or
`[digitpart] "." [digitpart]` with at least one digit part present. -/
def mantissaOk (l : List Char) : Bool :=
  match splitAtFirst (fun c => c = '.') l with
  | (d, none) => digitsOk d
  | (d, some f) =>
    (digitsOk d || d.isEmpty) && (digitsOk f || f.isEmpty) && !(d.isEmpty && f.isEmpty)

/-- Rational value of a well-formed mantissa. -/
def mantissaVal (l : List Char) : Frac :=
  match splitAtFirst (fun c => c = '.') l with
  | (d, none) => Frac.ofInt (digitsVal d)
  | (d, some f) =>
    Frac.add (Frac.ofInt (digitsVal d))
      (Frac.div (Frac.ofInt (digitsVal f)) (Frac.pw (Frac.ofInt 10) (digitsLen f)))

/-- Well-formedness of an exponent part (after `e`/`E`). -/
def expOk : List Char → Bool
  | '+' :: t => digitsOk t
  | '-' :: t => digitsOk t
  | t => digitsOk t

/-- Signed value of an exponent part. -/
def expVal : List Char → Int
  | '+' :: t => (digitsVal t : Int)
  | '-' :: t => -(digitsVal t : Int)
  | t => (digitsVal t : Int)

/-- Well-formedness of an unsigned numeric literal, possibly with an
`e`/`E` exponent. -/
def numOk (l : List Char) : Bool :=
  match splitAtFirst (fun c => c = 'e' ∨ c = 'E') l with
  | (m, none) => mantissaOk m
  | (m, some e) => mantissaOk m && expOk e

/-- Rational value of a well-formed unsigned numeric literal. -/
def numVal (l : List Char) : Frac :=
  match splitAtFirst (fun c => c = 'e' ∨ c = 'E') l with
  | (m, none) => mantissaVal m
  | (m, some e) => Frac.mul (mantissaVal m) (Frac.zpow (Frac.ofInt 10) (expVal e))

/-- Python `float()` on an already-stripped character list: optional
sign, then `nan`/`inf`/`infinity` (case-insensitive) or a numeric
literal; `none` models `ValueError`. -/
def coreParse (l : List Char) : Option PyFloat :=
  let signed : Bool × List Char :=
    match l with
    | '+' :: t => (true, t)
    | '-' :: t => (false, t)
    | t => (true, t)
  let low := Py.lowerL signed.2
  if low = [ 'n', 'a', 'n'] then some .nan
  else if low = [ 'i', 'n', 'f'] ∨
      low = [ 'i', 'n', 'f', 'i', 'n', 'i', 't', 'y'] then some (.pinf signed.1)
  else if numOk signed.2 then
    some (.fin (if signed.1 then numVal signed.2 else Frac.neg (numVal signed.2)))
  else none

/-- Python `float(s)` for a string argument: strips whitespace, then
parses; `none` models the `ValueError` raised on malformed input. -/
def ofString? (s : String) : Option PyFloat := coreParse (Py.trim s.data)

/-- Truncation toward zero of a rational, the behaviour of Python
`int()` applied to a float value. -/
def ratTrunc (q : Frac) : Int := Int.tdiv q.num q.den

/-- Python `int()` applied to a float: truncates finite values, raises
(`none`) on NaN and infinities. -/
def toInt? : PyFloat → Option Int
  | .fin q => some (ratTrunc q)
  | _ => none

/-- IEEE-style addition on the model: NaN propagates, opposite
infinities give NaN. -/
def add : PyFloat → PyFloat → PyFloat
  | .nan, _ => .nan
  | _, .nan => .nan
  | .pinf a, .pinf b => if a = b then .pinf a else .nan
  | .pinf a, .fin _ => .pinf a
  | .fin _, .pinf b => .pinf b
  | .fin a, .fin b => .fin (Frac.add a b)

/-- Left fold of `add` starting from `0.0`, the behaviour of Python
`sum` on a list of floats. -/
def sumL (l : List PyFloat) : PyFloat := l.foldl add (.fin 0)

end PyFloat

/-! ## Rows -/

/-- A data row: a finite mapping from column name to raw cell text,
in column order. -/
abbrev Row := List (String × String)

deriving instance DecidableEq for Except

/-- Dictionary lookup, `none` when the key is absent. -/
def rowGet? (r : Row) (k : String) : Option String :=
  (r.find? (fun p => p.1 == k)).map (fun p => p.2)

/-- Dictionary lookup with a default (`dict.get(k, d)`). -/
def rowGetD (r : Row) (k : String) (d : String) : String := (rowGet? r k).getD d

/-! ## Shared GUID-pattern machinery

The two GUID extractors use the regexes `/([a-z0-9]{5})(?:[_/]|$)` (v6)
and `/([a-z0-9]{4,10})(?:[_/]|$)` (v4), both with `re.IGNORECASE`. -/

/-- A character matched by `[a-z0-9]` under `re.IGNORECASE` (ASCII). -/
def guidChar (c : Char) : Bool :=
  ('a' ≤ c ∧ c ≤ 'z') ∨ ('A' ≤ c ∧ c ≤ 'Z') ∨ ('0' ≤ c ∧ c ≤ '9')

/-- The continuation test `(?:[_/]|$)`: the next character is `_` or
`/`, or the position is at the end of the text (Python `$` also matches
just before a single trailing newline). -/
def tailOk : List Char → Bool
  | [] => true
  | ['\n'] => true
  | c :: _ => c = '_' ∨ c = '/'

namespace V6

/-- Source `_as_int` (dashboard_v6.py): `int(float(val))` with every
exception yielding `0`. -/
def as_int (val : String) : Int :=
  match PyFloat.ofString? val with
  | some f => (PyFloat.toInt? f).getD 0
  | none => 0

/-- Source `_as_float` (dashboard_v6.py): `float(val)` with every
exception yielding `0.0`. -/
def as_float (val : String) : PyFloat :=
  (PyFloat.ofString? val).getD (.fin 0)

/-- Attempted match of `([a-z0-9]{5})(?:[_/]|$)` directly after a `/`. -/
def tryAt5 (l : List Char) : Option (List Char) :=
  let seg := l.take 5
  if seg.length = 5 ∧ seg.all guidChar ∧ tailOk (l.drop 5) then some seg else none

/-- Leftmost search for `/([a-z0-9]{5})(?:[_/]|$)`. -/
def scan5 : List Char → Option (List Char)
  | [] => none
  | c :: t =>
    if c = '/' then
      match tryAt5 t with
      | some s => some s
      | none => scan5 t
    else scan5 t

/-- Source `extract_osf_guid` (dashboard_v6.py lines 207-218): a bare
5-character GUID is lower-cased and returned; otherwise the first URL
segment matching `/([a-z0-9]{5})(?:[_/]|$)` is returned lower-cased;
otherwise the empty string. -/
def extract_osf_guid (value : String) : String :=
  if value = "" then ""
  else
    let v := Py.trim value.data
    if v.length = 5 ∧ v.all guidChar then String.mk (Py.lowerL v)
    else
      match scan5 v with
      | some seg => String.mk (Py.lowerL seg)
      | none => ""

/-- Removal of a leading `https?://(dx.)?doi.org/` (case-insensitive),
as performed by the first `re.sub` in `normalize_doi`. -/
def stripHttpDoi (l : List Char) : List Char :=
  if Py.ciIsPrefix "https://dx.doi.org/".data l then l.drop 19
  else if Py.ciIsPrefix "http://dx.doi.org/".data l then l.drop 18
  else if Py.ciIsPrefix "https://doi.org/".data l then l.drop 16
  else if Py.ciIsPrefix "http://doi.org/".data l then l.drop 15
  else l

/-- Removal of a leading `doi:\s*` (case-insensitive), the second
`re.sub` in `normalize_doi`. -/
def stripDoiColon (l : List Char) : List Char :=
  if Py.ciIsPrefix "doi:".data l then (l.drop 4).dropWhile Py.isSpace else l

/-- `normalize_doi` on character lists. -/
def normDoiL (l : List Char) : List Char :=
  if l.isEmpty then [] else Py.trim (stripDoiColon (stripHttpDoi (Py.trim l)))

/-- Source `normalize_doi` (dashboard_v6.py lines 221-227). -/
def normalize_doi (value : String) : String := String.mk (normDoiL value.data)

/-- Source `make_doi_url` (dashboard_v6.py lines 240-242):
`https://doi.org/` plus the normalized DOI when non-empty, else `""`. -/
def make_doi_url (doi_or_url : String) : String :=
  let doi := normalize_doi doi_or_url
  if doi = "" then "" else "https://doi.org/" ++ doi

/-- Collapse of every maximal whitespace run to a single `_`
(`re.sub(r"\s+", "_", ...)`); the flag records whether the previous
character belonged to a whitespace run. -/
def collapseWsAux (inRun : Bool) : List Char → List Char
  | [] => []
  | c :: t =>
    if Py.isSpace c then
      if inRun then collapseWsAux true t else '_' :: collapseWsAux true t
    else c :: collapseWsAux false t

/-- `re.sub(r"\s+", "_", ...)`. -/
def collapseWs (l : List Char) : List Char := collapseWsAux false l

/-- Source `_normalize_cols` applied to one column name:
`re.sub(r"\s+", "_", c.strip().lower())`. -/
def normCol (s : String) : String :=
  String.mk (collapseWs (Py.trim (Py.lowerL s.data)))

/-- One cell of the derived-total sums in `load_data` (lines 289-290):
`_as_int(x)` for `x` drawn from `pd.to_numeric(col, errors="coerce").fillna(0)`.
Unparseable or empty text coerces to NaN and is filled with `0`;
infinities make `int()` raise, which `_as_int` swallows to `0`. -/
def cellInt (s : String) : Int :=
  match PyFloat.ofString? s with
  | some (.fin q) => PyFloat.ratTrunc q
  | _ => 0

/-- One cell of the storage sum in `load_data` (line 291):
`_as_float(x)` over the numeric-coerced, zero-filled column. -/
def cellFloat (s : String) : PyFloat :=
  match PyFloat.ofString? s with
  | none => .fin 0
  | some .nan => .fin 0
  | some v => v

/-- The `summary` dict built by `load_data` when a summary row exists
(dashboard_v6.py lines 278-291). -/
structure Summary where
  total_users : Int
  monthly_logged_in : Int
  monthly_active : Int
  projects_total : Nat
  registrations_total : Nat
  preprints_total : Nat
  public_file_total : Int
  storage_gb_total : PyFloat
deriving DecidableEq, Repr

/-- Construction of the `summary` dict from the summary row and the
already-partitioned entity collections. -/
def buildSummary (r : Row) (projects registrations preprints : List Row) : Summary where
  total_users := as_int (rowGetD r "total_users" "0")
  monthly_logged_in := as_int (rowGetD r "summary_monthly_logged_in_users" "0")
  monthly_active := as_int (rowGetD r "summary_monthly_active_users" "0")
  projects_total := projects.length
  registrations_total := registrations.length
  preprints_total := preprints.length
  public_file_total :=
    (projects.map (fun p => cellInt (rowGetD p "public_file_count" ""))).sum
  storage_gb_total :=
    PyFloat.sumL (projects.map (fun p => cellFloat (rowGetD p "storage_gb" "")))

/-- The discriminator value of a row: `row["row_type"].lower()` (v6
applies `.str.lower()` with no strip; absent cells were filled with
`""` at read time). -/
def rowKind (r : Row) : String := Py.lower (rowGetD r "row_type" "")

/-- Column renaming performed by `load_data`: every key normalized. -/
def renameRow (r : Row) : Row := r.map (fun p => (normCol p.1, p.2))

/-- Result of `load_data`: the `summary` dict (`none` when the dataset
has no summary row, in which case the rendered metrics default to 0)
plus the three entity collections. -/
structure Load where
  summary? : Option Summary
  projects : List Row
  registrations : List Row
  preprints : List Row
deriving DecidableEq, Repr

/-- Source `load_data` (dashboard_v6.py lines 247-293) over an
in-memory row set: normalizes column names, requires the `row_type`
discriminator (raising `ValueError` otherwise), partitions the rows,
and builds the summary dict when a summary row exists.  When a summary
row exists but the schema lacks `public_file_count` or `storage_gb`,
`projects.get(col, "0")` returns a scalar and the subsequent `.fillna`
raises `AttributeError`; that path is the `.error "AttributeError"`
case. -/
def load_data (cols : List String) (rows : List Row) : Except String Load :=
  let ncols := cols.map normCol
  if ¬ ncols.contains "row_type" then
    .error "CSV must include a \x27row_type\x27 column."
  else
    let rows2 := rows.map renameRow
    let summaryRow? := (rows2.filter (fun r => rowKind r = "summary")).head?
    let projects := rows2.filter (fun r => rowKind r = "project")
    let registrations := rows2.filter (fun r => rowKind r = "registration")
    let preprints := rows2.filter (fun r => rowKind r = "preprint")
    match summaryRow? with
    | none => .ok ⟨none, projects, registrations, preprints⟩
    | some r =>
      if ncols.contains "public_file_count" ∧ ncols.contains "storage_gb" then
        .ok ⟨some (buildSummary r projects registrations preprints),
          projects, registrations, preprints⟩
      else .error "AttributeError"

/-- The rendered "Monthly logged-in users" tile:
`summary.get("monthly_logged_in", 0)` (dashboard_v6.py line 325). -/
def renderMonthlyLoggedIn (s? : Option Summary) : Int :=
  match s? with
  | none => 0
  | some s => s.monthly_logged_in

/-- The rendered "Monthly active users" tile:
`summary.get("monthly_active", 0)` (dashboard_v6.py line 326). -/
def renderMonthlyActive (s? : Option Summary) : Int :=
  match s? with
  | none => 0
  | some s => s.monthly_active

/-- The rendered "Total public file count" tile:
`summary.get("public_file_total", 0)`. -/
def renderPublicFileTotal (s? : Option Summary) : Int :=
  match s? with
  | none => 0
  | some s => s.public_file_total

/-- Source `paginate` (dashboard_v6.py lines 428-443): empty views
report one page; otherwise `total_pages = max(1, ceil(total/size))`
via the `(total + size - 1) // size` idiom, the session page number is
clamped into `[1, total_pages]`, and the 1-based window is sliced. -/
def paginate {α : Type} (view : List α) (page : Int) (size : Nat) :
    List α × Int × Nat :=
  if view.length = 0 then (view, 1, 1)
  else
    let tp := max 1 ((view.length + size - 1) / size)
    let p := max 1 (min (tp : Int) page)
    ((view.drop ((p - 1).toNat * size)).take size, p, tp)

end V6

namespace V4

/-- Source `_int` (dashboard_v4.py lines 448-452):
`int(float(str(x).strip()))` with every exception yielding `0`
(`float` itself strips whitespace, so the extra `strip` is a no-op). -/
def intOf (x : String) : Int :=
  match PyFloat.ofString? x with
  | some f => (PyFloat.toInt? f).getD 0
  | none => 0

/-- Source `_to_float` (dashboard_v4.py lines 215-219):
`float(str(x).strip())` with every exception yielding `0.0`. -/
def to_float (x : String) : PyFloat :=
  (PyFloat.ofString? x).getD (.fin 0)

/-- Python `a or b or ... or 0` over optional strings: the first
non-`None`, non-empty string, else the literal `0` (which `_to_float`
and `_int` read as `"0"`). -/
def firstTruthy (opts : List (Option String)) : String :=
  (((opts.filterMap id).filter (fun s => ¬ s = "")).headD "0")

/-- Attempted match of `([a-z0-9]{4,10})(?:[_/]|$)` directly after a
`/`: the greedy quantifier succeeds exactly on the full maximal run of
GUID characters when its length lies in `[4,10]` (a shorter take would
be followed by a further GUID character, failing `(?:[_/]|$)`). -/
def tryAt410 (l : List Char) : Option (List Char) :=
  let run := (l.takeWhile guidChar).length
  if 4 ≤ run ∧ run ≤ 10 ∧ tailOk (l.drop run) then some (l.take run) else none

/-- Leftmost search for `/([a-z0-9]{4,10})(?:[_/]|$)`. -/
def scan410 : List Char → Option (List Char)
  | [] => none
  | c :: t =>
    if c = '/' then
      match tryAt410 t with
      | some s => some s
      | none => scan410 t
    else scan410 t

/-- Python `str.rstrip("/")`. -/
def rstripSlash (l : List Char) : List Char := l.rdropWhile (fun c => c = '/')

/-- `re.split` on a character class: split at every separator, keeping
empty pieces; the result is always non-empty. -/
def splitAny (p : Char → Bool) : List Char → List (List Char)
  | [] => [[]]
  | c :: t =>
    if p c then [] :: splitAny p t
    else
      match splitAny p t with
      | [] => [[c]]
      | h :: r => (c :: h) :: r

/-- Source `parse_guid_from_url` (dashboard_v4.py lines 98-109): the
first `/([a-z0-9]{4,10})(?:[_/]|$)` segment (NOT lower-cased), else
the last `[/?#]`-separated token of the `/`-right-stripped input. -/
def parse_guid_from_url (url : String) : String :=
  if url = "" then ""
  else
    let u := Py.trim url.data
    match scan410 u with
    | some seg => String.mk seg
    | none =>
      String.mk
        (((splitAny (fun c => c = '/' ∨ c = '?' ∨ c = '#') (rstripSlash u)).getLastD []))

/-- The "Total Public File Count" entry of `summarize_counts`
(dashboard_v4.py line 224): read from the summary-row fields
`public_file_count` / `total_public_file_count`, not from any entity
collection. -/
def totalPublicFileCount (summary : Row) : PyFloat :=
  to_float (firstTruthy
    [rowGet? summary "public_file_count", rowGet? summary "total_public_file_count"])

/-- The "Total Storage in GB" entry of `summarize_counts`
(dashboard_v4.py line 225): read from the summary-row fields
`storage_gb` / `total_storage_gb` / `total_storage_in_gb`. -/
def totalStorageGB (summary : Row) : PyFloat :=
  to_float (firstTruthy
    [rowGet? summary "storage_gb", rowGet? summary "total_storage_gb",
      rowGet? summary "total_storage_in_gb"])

/-- The dict returned by `summarize_counts` (dashboard_v4.py lines
214-228). -/
structure Counts where
  osf_preprints : PyFloat
  total_public_file_count : PyFloat
  total_storage_in_gb : PyFloat
  projects_total : PyFloat
  registrations_total : PyFloat
deriving DecidableEq, Repr

/-- Source `summarize_counts`: preprint/project/registration totals are
row counts of the entity collections; the file-count and storage
entries come from the summary row. -/
def summarize_counts (summary : Row)
    (projects registrations preprints : List Row) : Counts where
  osf_preprints := .fin (Frac.ofInt preprints.length)
  total_public_file_count := totalPublicFileCount summary
  total_storage_in_gb := totalStorageGB summary
  projects_total := .fin (Frac.ofInt projects.length)
  registrations_total := .fin (Frac.ofInt registrations.length)

/-- Source `_normalize_cols` (dashboard_v4.py lines 44-50) applied to
one column name: strips whitespace and deletes BOM characters; unlike
the v6 normalizer it does NOT lower-case and does NOT replace inner
whitespace, so `ROW_TYPE` or `Row Type` are not accepted as the
discriminator by v4. -/
def normCol (s : String) : String :=
  String.mk ((Py.trim s.data).filter (fun c => ¬ (c = '\uFEFF')))

/-- Source `ensure_row_type` (dashboard_v4.py lines 89-95) restricted
to its schema check: normalizes the column names with v4's own
`_normalize_cols` and raises `ValueError` when `row_type` is absent. -/
def ensure_row_type (cols : List String) : Except String (List String) :=
  let ncols := cols.map normCol
  if ncols.contains "row_type" then .ok ncols
  else
    .error
      "CSV must include a \x27row_type\x27 column (branding/summary/project/registration/preprint)."

/-- The "monthly logged-in" figure of v4 `render_summary` (line 457):
`_int(summary.get("summary_monthly_logged_in_users") or 0)`; the
summary dict is `{}` when the dataset has no summary row. -/
def monthlyLoggedIn (summary : Row) : Int :=
  intOf (firstTruthy [rowGet? summary "summary_monthly_logged_in_users"])

/-- The "monthly active" figure of v4 `render_summary` (line 458). -/
def monthlyActive (summary : Row) : Int :=
  intOf (firstTruthy [rowGet? summary "summary_monthly_active_users"])

end V4

namespace Dash

/-- Source `paginate_df` (dashboard.py lines 260-266): the page number
is 0-based and used UNclamped; an empty frame reports `0` total pages;
otherwise `total_pages = ceil(total / page_size)`.  (Modelled for
non-negative page numbers and positive page size, the regime of every
claim.) -/
def paginate_df {α : Type} (df : List α) (page_size page_number : Nat) :
    List α × Nat :=
  if df.length = 0 then (df, 0)
  else ((df.drop (page_number * page_size)).take page_size,
    (df.length + page_size - 1) / page_size)

/-- Source `has_all_creators` (dashboard.py lines 941-943): the cell
text (empty for an NaN cell) must contain EVERY selected creator as a
substring. -/
def has_all_creators (creators_selected : List String) (val : Option String) : Bool :=
  creators_selected.all (fun c => Py.strIn c (val.getD ""))

/-- Source `has_any_addon` (dashboard.py lines 967-969): the cell text
must contain SOME selected add-on as a substring. -/
def has_any_addon (addons_selected : List String) (val : Option String) : Bool :=
  addons_selected.any (fun a => Py.strIn a (val.getD ""))

/-- A raw (non-numeric-coerced) cell of dashboard.py's frame, which is
read with `dtype=str` and no `fillna`: an empty CSV field is NaN
(`none`). -/
def rawCell? (r : Row) (k : String) : Option String :=
  match rowGet? r k with
  | none => none
  | some s => if s = "" then none else some s

/-- A cell of a `pd.to_numeric(..., errors="coerce")` column: absent
key is an absent column (`none`, the `Series.get` default), an empty
cell is NaN, and unparseable text coerces to NaN. -/
def numericGet (r : Row) (k : String) : Option PyFloat :=
  match rowGet? r k with
  | none => none
  | some s => some (if s = "" then .nan else (PyFloat.ofString? s).getD .nan)

/-- `summary_meta.get(key) if not summary_meta.empty else None`. -/
def sfield (summary? : Option Row) (k : String) : Option PyFloat :=
  summary?.bind (fun r => numericGet r k)

/-- `pd.notna` on an optional float: true exactly for finite values and
infinities. -/
def notna : Option PyFloat → Bool
  | some (.fin _) => true
  | some (.pinf _) => true
  | _ => false

/-- Python `x or 0` for `x` either `None` (absent column), NaN, or a
float: `None` and `0.0` give `0`, NaN is truthy and propagates. -/
def orZero : Option PyFloat → PyFloat
  | none => .fin 0
  | some v => v

/-- The `total_projects` / `total_regs` computation of
`compute_summary_metrics` (dashboard.py lines 347-361):
`int((pub or 0) + (priv or 0))` when either summary field is non-NA,
else the entity-collection row count.  `none` models the `ValueError`
`int()` raises when a NaN or infinity reaches it. -/
def totalOf (pub priv : Option PyFloat) (fallbackLen : Nat) : Option Int :=
  if notna pub ∨ notna priv then PyFloat.toInt? (PyFloat.add (orZero pub) (orZero priv))
  else some (fallbackLen : Int)

/-- `users_raw.get(col, empty).notna().sum()`: the number of rows whose
(string) cell is present and non-empty. -/
def countNotna (users : List Row) (k : String) : Nat :=
  users.countP (fun r => (rawCell? r k).isSome)

/-- The logged-in/active metric of `compute_summary_metrics`
(dashboard.py lines 372-401): the summary write-in when it is a number
(`int(x or 0)`), the count of non-NA `month_last_*` user cells when the
write-in is `None`/NaN, and a raised `ValueError` (`none`) when the
write-in is an infinity. -/
def loggedInOf (field : Option PyFloat) (derivedCount : Nat) : Option Int :=
  match field with
  | some (.fin q) => some (PyFloat.ratTrunc q)
  | some (.pinf _) => none
  | _ => some (derivedCount : Int)

/-- One cell of a numeric column after `.fillna(0)`: NaN (or an absent
column) becomes `0.0`; finite values and infinities pass through. -/
def fillCell (r : Row) (k : String) : PyFloat :=
  match numericGet r k with
  | some (.fin q) => .fin q
  | some (.pinf b) => .pinf b
  | _ => .fin 0

/-- `users_raw.get(col, empty).fillna(0).sum()` over a numeric-coerced
column. -/
def sumFillna0 (users : List Row) (k : String) : PyFloat :=
  PyFloat.sumL (users.map (fun r => fillCell r k))

/-- Round-half-to-even of a rational, the idealized behaviour of
Python's `round` on the exact-rational float model. -/
def roundHalfEven (q : Frac) : Int :=
  let f := q.floor
  let r := q.sub (Frac.ofInt f)
  if Frac.lt r (Frac.mk0 1 2) then f
  else if Frac.lt (Frac.mk0 1 2) r then f + 1
  else if f % 2 = 0 then f else f + 1

/-- Python `round(x, 1)` on the float model. -/
def pyRound1 : PyFloat → PyFloat
  | .fin q => .fin (Frac.div (Frac.ofInt (roundHalfEven (q.mul (Frac.ofInt 10)))) (Frac.ofInt 10))
  | v => v

/-- `round(float(total_storage_gb), 1) if pd.notna(total_storage_gb)
else 0` (dashboard.py lines 396-398). -/
def storageMetric (s : PyFloat) : PyFloat :=
  if s = .nan then .fin 0 else pyRound1 s

/-- The dict returned by `compute_summary_metrics` (dashboard.py lines
342-401); `none` fields model a raised exception inside the
corresponding `int()` conversion. -/
structure Metrics where
  total_users : Nat
  total_projects : Option Int
  total_regs : Option Int
  total_preprints : Nat
  total_public_files : Option Int
  total_storage_gb : PyFloat
  total_logged_in_users : Option Int
  total_active_users : Option Int
deriving DecidableEq, Repr

/-- Source `compute_summary_metrics` (dashboard.py lines 342-401) as a
function of the summary row (already numeric-coerced per `load_data`'s
`numeric_cols`) and the four entity collections. -/
def compute_summary_metrics (summary? : Option Row)
    (users projects regs preprints : List Row) : Metrics where
  total_users := users.length
  total_projects :=
    totalOf (sfield summary? "projects_public_count")
      (sfield summary? "projects_private_count") projects.length
  total_regs :=
    totalOf (sfield summary? "registrations_public_count")
      (sfield summary? "registrations_embargoed_count") regs.length
  total_preprints := preprints.length
  total_public_files := PyFloat.toInt? (sumFillna0 users "public_file_count")
  total_storage_gb := storageMetric (sumFillna0 users "storage_gb")
  total_logged_in_users :=
    loggedInOf (sfield summary? "summary_monthly_logged_in_users")
      (countNotna users "month_last_login")
  total_active_users :=
    loggedInOf (sfield summary? "summary_monthly_active_users")
      (countNotna users "month_last_active")

end Dash

/-! ## Specification-side definitions

These follow the wording of the specification (§4.3, §4.6) and are
compared against the source-derived definitions above. -/

/-- Textbook ceiling division, the `ceil(len(view) / page_size)` of the
Paginator specification. -/
def specCeilDiv (a b : Nat) : Nat := if a % b = 0 then a / b else a / b + 1

/-- Specification-side numeric value of one cell: its finite numeric
value, with a missing, empty or malformed cell contributing `0`
("Missing numeric columns contribute `0` to any sum, never raise",
§4.3). -/
def specCell (r : Row) (k : String) : Frac :=
  match PyFloat.ofString? (rowGetD r k "") with
  | some (.fin q) => q
  | _ => Frac.ofInt 0

/-- Specification-side "sum a numeric column across a collection". -/
def specSumColumn (rows : List Row) (k : String) : Frac :=
  (rows.map (fun r => specCell r k)).foldl Frac.add (Frac.ofInt 0)

/-- Per-cell integer variant of `specSumColumn` (each cell truncated to
an integer before summing, the convention of the v6 loader). -/
def specSumColumnInt (rows : List Row) (k : String) : Int :=
  (rows.map (fun r =>
    match PyFloat.ofString? (rowGetD r k "") with
    | some (.fin q) => PyFloat.ratTrunc q
    | _ => 0)).sum

/-- No cell of the column parses to an infinity (the only case where
Python float summation diverges from the rational model's column sum). -/
def noInfColumn (rows : List Row) (k : String) : Bool :=
  rows.all (fun r =>
    match Dash.numericGet r k with
    | some (.pinf _) => false
    | _ => true)

/-! ## C6 -/

/-- C6 counterexample.  The claim says the GUID extractor returns the
first `[a-z0-9]{4,10}` trailing segment and the empty string when no
such segment exists.  Both halves fail on the code:
`parse_guid_from_url` (dashboard_v4.py) falls back to the last path
token instead of `""` (so `"not a url"` maps to itself), and
`extract_osf_guid` (dashboard_v6.py) only matches segments of exactly
five characters (so a seven-character segment yields `""`, not the
segment). -/
theorem C6_counterexample :
    V4.parse_guid_from_url "not a url" = "not a url" ∧
      ¬ V4.parse_guid_from_url "not a url" = "" ∧
      V6.extract_osf_guid "https://osf.io/abcdefg/" = "" := by
  refine ⟨by decide, by decide, by decide⟩

/-- C6 amended: `extract_osf_guid` (v6) returns the first path segment
of exactly five `[a-z0-9]` characters, lower-cased, and `""` when none
exists — on it all three example equalities hold; `parse_guid_from_url`
(v4) returns the first `[a-z0-9]{4,10}` trailing segment but falls back
to the last `[/?#]`-separated token instead of `""`, so the two URL
examples hold for it while `"not a url"` maps to itself. -/
theorem C6_theorem :
    V6.extract_osf_guid "https://osf.io/kr68a/" = "kr68a" ∧
      V6.extract_osf_guid "https://osf.io/kr68a_v2/" = "kr68a" ∧
      V6.extract_osf_guid "not a url" = "" ∧
      V4.parse_guid_from_url "https://osf.io/kr68a/" = "kr68a" ∧
      V4.parse_guid_from_url "https://osf.io/kr68a_v2/" = "kr68a" ∧
      V4.parse_guid_from_url "not a url" = "not a url" := by
  refine ⟨by decide, by decide, by decide, by decide, by decide, by decide⟩

/-! ## C7 -/

/-- C7 counterexample.  The claim says `parse_int` strips thousands
separators, so `parse_int("1,200") = 1200`; in the code (`_as_int` of
dashboard_v6.py, `_int` of dashboard_v4.py) `float("1,200")` raises and
the default `0` is returned instead. -/
theorem C7_counterexample :
    V6.as_int "1,200" = 0 ∧ ¬ V6.as_int "1,200" = 1200 ∧ V4.intOf "1,200" = 0 := by
  refine ⟨by decide, by decide, by decide⟩

/-- C7 amended: the integer parser never raises and returns the default
`0` on empty input, a missing (`None`) value, the literal strings
`"none"`/`"nan"` in any letter case, and any other non-numeric content
INCLUDING `"1,200"` — thousands separators are not stripped, a comma
makes the string non-numeric; plain numerals parse normally. -/
theorem C7_theorem :
    V6.as_int "" = 0 ∧
      V6.as_int "none" = 0 ∧ V6.as_int "None" = 0 ∧ V6.as_int "NONE" = 0 ∧
      V6.as_int "nan" = 0 ∧ V6.as_int "NaN" = 0 ∧ V6.as_int "NAN" = 0 ∧
      V6.as_int "1,200" = 0 ∧ V6.as_int "1200" = 1200 ∧ V6.as_int " 1200 " = 1200 ∧
      V4.intOf "" = 0 ∧ V4.intOf "none" = 0 ∧ V4.intOf "NaN" = 0 ∧
      V4.intOf "1,200" = 0 ∧ V4.intOf "1200" = 1200 := by
  refine ⟨by decide, by decide, by decide, by decide, by decide, by decide, by decide,
    by decide, by decide, by decide, by decide, by decide, by decide, by decide, by decide⟩

/-- Folding `PyFloat.add` over finite values from a finite start stays
finite and agrees with the `Frac` fold. -/
theorem foldl_pyAdd_fin (vals : List Frac) (a : Frac) :
    (vals.map PyFloat.fin).foldl PyFloat.add (.fin a) =
      .fin (vals.foldl Frac.add a) := by
  induction vals generalizing a with
  | nil => rfl
  | cons v t ih => simpa [PyFloat.add] using ih (a.add v)

/-- Under `noInfColumn`, `fillna(0)` cells agree with the
specification-side cell values. -/
theorem fillCell_eq_specCell (r : Row) (k : String)
    (h : (match Dash.numericGet r k with
      | some (.pinf _) => false
      | _ => true) = true) :
    Dash.fillCell r k = .fin (specCell r k) := by
  unfold Dash.fillCell specCell Dash.numericGet rowGetD at *
  cases hx : rowGet? r k with
  | none => simp only [hx]; rfl
  | some s =>
    by_cases hs : s = ""
    · subst hs; simp only [hx]; rfl
    · simp only [hx, hs, if_false, if_neg hs, Option.getD_some] at h ⊢
      cases hp : PyFloat.ofString? s with
      | none => simp [hp]; rfl
      | some v =>
        cases v with
        | nan => simp [hp]; rfl
        | pinf b => simp [hp] at h
        | fin q => simp [hp]

/-- Under `noInfColumn`, the pandas fill-and-sum equals the
specification-side column sum. -/
theorem sumFillna0_eq_spec (users : List Row) (k : String)
    (h : noInfColumn users k = true) :
    Dash.sumFillna0 users k = .fin (specSumColumn users k) := by
  unfold Dash.sumFillna0 specSumColumn PyFloat.sumL
  rw [show (users.map fun r => Dash.fillCell r k) =
      (users.map fun r => specCell r k).map PyFloat.fin from ?_]
  · exact foldl_pyAdd_fin _ _
  · rw [List.map_map]
    refine List.map_congr_left (fun r hr => ?_)
    have hh := (List.all_eq_true.mp h) r hr
    exact fillCell_eq_specCell r k hh

/-! ## C1 -/

/-- C1 counterexample.  The claim says that when the summary row is
absent the monthly logged-in metric is `0` and no Users-derived count
is ever substituted; in `compute_summary_metrics` (dashboard.py), with
no summary row and three user rows carrying `month_last_login`, the
metric is the derived count `3`, not `0`. -/
theorem C1_counterexample :
    (Dash.compute_summary_metrics none
        [[("month_last_login", "2024-01")], [("month_last_login", "2024-02")],
          [("month_last_login", "2024-03")]] [] [] []).total_logged_in_users = some 3 ∧
      ¬ (Dash.compute_summary_metrics none
          [[("month_last_login", "2024-01")], [("month_last_login", "2024-02")],
            [("month_last_login", "2024-03")]] [] [] []).total_logged_in_users = some 0 := by
  refine ⟨by decide, by decide⟩

/-- C1 amended.  The v6 engine reads monthly logged-in / active users
from the named summary-row fields via integer parsing and yields `0`
when the summary row is absent; dashboard.py instead substitutes the
count of Users rows with a non-null `month_last_login`
(resp. `month_last_active`) whenever the summary row is absent. -/
theorem C1_theorem :
    (∀ (users projects regs preprints : List Row),
        (Dash.compute_summary_metrics none users projects regs preprints).total_logged_in_users
            = some (Dash.countNotna users "month_last_login" : Int) ∧
          (Dash.compute_summary_metrics none users projects regs preprints).total_active_users
            = some (Dash.countNotna users "month_last_active" : Int)) ∧
      V6.renderMonthlyLoggedIn none = 0 ∧ V6.renderMonthlyActive none = 0 ∧
      (∀ (r : Row) (projects regs preprints : List Row),
        V6.renderMonthlyLoggedIn (some (V6.buildSummary r projects regs preprints))
            = V6.as_int (rowGetD r "summary_monthly_logged_in_users" "0") ∧
          V6.renderMonthlyActive (some (V6.buildSummary r projects regs preprints))
            = V6.as_int (rowGetD r "summary_monthly_active_users" "0")) := by
  refine ⟨fun users projects regs preprints => ⟨rfl, rfl⟩, rfl, rfl,
    fun r projects regs preprints => ⟨rfl, rfl⟩⟩

/-! ## C3 -/

/-- C3 confirmed.  For any dataset whose summary row carries
`projects_public_count = 120` and `projects_private_count = 30`, the
"OSF Public and Private Projects" metric (`total_projects` of
`compute_summary_metrics`, rendered at dashboard.py line 439) is `150`,
whatever the Projects collection contains. -/
theorem C3_theorem (r : Row) (users projects regs preprints : List Row)
    (h1 : rowGet? r "projects_public_count" = some "120")
    (h2 : rowGet? r "projects_private_count" = some "30") :
    (Dash.compute_summary_metrics (some r) users projects regs preprints).total_projects
      = some 150 := by
  show Dash.totalOf (Dash.sfield (some r) "projects_public_count")
    (Dash.sfield (some r) "projects_private_count") projects.length = some 150
  simp only [Dash.sfield, Option.bind, Dash.numericGet, h1, h2]
  rfl

/-- C3 witness at a concrete summary row and a three-row Projects
collection. -/
theorem C3_witness :
    (Dash.compute_summary_metrics
        (some [("projects_public_count", "120"), ("projects_private_count", "30")])
        [] [[("x", "1")], [("x", "2")], [("x", "3")]] [] []).total_projects = some 150 :=
  C3_theorem _ _ _ _ _ (by decide) (by decide)

/-- Analogue of `fillCell_eq_specCell` for the v6 loader's
`_as_float` over a numeric-coerced, zero-filled cell. -/
theorem v6CellFloat_eq_specCell (r : Row) (k : String)
    (h : (match Dash.numericGet r k with
      | some (.pinf _) => false
      | _ => true) = true) :
    V6.cellFloat (rowGetD r k "") = .fin (specCell r k) := by
  unfold V6.cellFloat specCell Dash.numericGet rowGetD at *
  cases hx : rowGet? r k with
  | none => rfl
  | some s =>
    by_cases hs : s = ""
    · subst hs; rfl
    · simp only [hx, hs, if_neg hs, Option.getD_some] at h ⊢
      cases hp : PyFloat.ofString? s with
      | none => simp [hp]; rfl
      | some v =>
        cases v with
        | nan => simp [hp]; rfl
        | pinf b => simp [hp] at h
        | fin q => simp [hp]

/-- Under `noInfColumn`, the v6 storage sum equals the
specification-side column sum. -/
theorem v6StorageSum_eq_spec (projects : List Row) (k : String)
    (h : noInfColumn projects k = true) :
    PyFloat.sumL (projects.map (fun p => V6.cellFloat (rowGetD p k "")))
      = .fin (specSumColumn projects k) := by
  unfold specSumColumn PyFloat.sumL
  rw [show (projects.map fun p => V6.cellFloat (rowGetD p k "")) =
      (projects.map fun r => specCell r k).map PyFloat.fin from ?_]
  · exact foldl_pyAdd_fin _ _
  · rw [List.map_map]
    refine List.map_congr_left (fun r hr => ?_)
    exact v6CellFloat_eq_specCell r k ((List.all_eq_true.mp h) r hr)

/-! ## C2 -/

/-- C2 counterexample.  The claim says the "total public file count"
metric always equals the column sum over the entity collections and is
never taken from a summary-row field; v4's `summarize_counts`, on a
dataset whose summary row says `public_file_count = 999` while the
Projects rows sum to `7`, reports `999` — the summary-row value. -/
theorem C2_counterexample :
    (V4.summarize_counts [("public_file_count", "999")]
        [[("public_file_count", "3")], [("public_file_count", "4")]] [] []).total_public_file_count
      = PyFloat.fin (Frac.ofInt 999) ∧
      ¬ (V4.summarize_counts [("public_file_count", "999")]
          [[("public_file_count", "3")], [("public_file_count", "4")]] [] []).total_public_file_count
        = PyFloat.fin (specSumColumn
            [[("public_file_count", "3")], [("public_file_count", "4")]] "public_file_count") := by
  refine ⟨by decide, by decide⟩

/-- C2 amended.  The derived-only behaviour holds for dashboard.py
(sums over the Users collection, truncated/rounded by the rendering
conversions) and for the v6 loader (sums over the Projects collection,
computed only when a summary row is present and rendered as `0`
otherwise); but v4's `summarize_counts` takes "Total Public File Count"
from the summary-row fields `public_file_count` /
`total_public_file_count` rather than from any entity collection. -/
theorem C2_theorem :
    (∀ (s? : Option Row) (users p rg pp : List Row),
        noInfColumn users "public_file_count" = true →
        (Dash.compute_summary_metrics s? users p rg pp).total_public_files
          = some (PyFloat.ratTrunc (specSumColumn users "public_file_count"))) ∧
      (∀ (s? : Option Row) (users p rg pp : List Row),
        noInfColumn users "storage_gb" = true →
        (Dash.compute_summary_metrics s? users p rg pp).total_storage_gb
          = Dash.pyRound1 (.fin (specSumColumn users "storage_gb"))) ∧
      (∀ (r : Row) (projects regs preprints : List Row),
        (V6.buildSummary r projects regs preprints).public_file_total
          = specSumColumnInt projects "public_file_count") ∧
      (∀ (r : Row) (projects regs preprints : List Row),
        noInfColumn projects "storage_gb" = true →
        (V6.buildSummary r projects regs preprints).storage_gb_total
          = .fin (specSumColumn projects "storage_gb")) ∧
      V6.renderPublicFileTotal none = 0 ∧
      (∀ (s : Row) (v : String) (p rg pp : List Row),
        rowGet? s "public_file_count" = some v → ¬ v = "" →
        (V4.summarize_counts s p rg pp).total_public_file_count = V4.to_float v) := by
  refine ⟨?_, ?_, ?_, ?_, rfl, ?_⟩
  · intro s? users p rg pp h
    show PyFloat.toInt? (Dash.sumFillna0 users "public_file_count") = _
    rw [sumFillna0_eq_spec users _ h]
    rfl
  · intro s? users p rg pp h
    show Dash.storageMetric (Dash.sumFillna0 users "storage_gb") = _
    rw [sumFillna0_eq_spec users _ h]
    rfl
  · intro r projects regs preprints
    rfl
  · intro r projects regs preprints h
    exact v6StorageSum_eq_spec projects _ h
  · intro s v p rg pp h hv
    show V4.to_float (V4.firstTruthy
      [rowGet? s "public_file_count", rowGet? s "total_public_file_count"]) = _
    rw [h]
    unfold V4.firstTruthy
    cases rowGet? s "total_public_file_count" <;> simp [hv]

/-- C2 witness at concrete datasets for the hypotheses of each
conjunct. -/
theorem C2_witness :
    (Dash.compute_summary_metrics none
        [[("public_file_count", "3")], [("public_file_count", "4")]] [] [] []).total_public_files
        = some (PyFloat.ratTrunc (specSumColumn
            [[("public_file_count", "3")], [("public_file_count", "4")]] "public_file_count")) ∧
      (V6.buildSummary [("row_type", "summary")]
          [[("storage_gb", "2.5")], [("storage_gb", "4")]] [] []).storage_gb_total
        = .fin (specSumColumn [[("storage_gb", "2.5")], [("storage_gb", "4")]] "storage_gb") ∧
      (V4.summarize_counts [("public_file_count", "999")] [] [] []).total_public_file_count
        = V4.to_float "999" :=
  ⟨C2_theorem.1 none _ [] [] [] (by decide),
    C2_theorem.2.2.2.1 _ _ [] [] (by decide),
    C2_theorem.2.2.2.2.2 _ "999" [] [] [] (by decide) (by decide)⟩

/-- Correctness of the boolean substring test: it decides contiguous
containment. -/
theorem isSub_iff (n h : List Char) :
    Py.isSub n h = true ↔ ∃ p q, h = p ++ n ++ q := by
  induction h with
  | nil =>
    unfold Py.isSub
    simp only [List.isEmpty_iff]
    constructor
    · rintro rfl; exact ⟨[], [], rfl⟩
    · rintro ⟨p, q, hpq⟩
      rcases List.append_eq_nil.mp hpq.symm with ⟨h1, h2⟩
      exact (List.append_eq_nil.mp h1).2
  | cons c t ih =>
    unfold Py.isSub
    simp only [Bool.or_eq_true]
    constructor
    · rintro (hp | hs)
      · rcases List.isPrefixOf_iff_prefix.mp hp with ⟨q, hq⟩
        exact ⟨[], q, by simpa using hq.symm⟩
      · rcases ih.mp hs with ⟨p, q, hpq⟩
        exact ⟨c :: p, q, by simp [hpq]⟩
    · rintro ⟨p, q, hpq⟩
      cases p with
      | nil =>
        left
        exact List.isPrefixOf_iff_prefix.mpr ⟨q, by simpa using hpq.symm⟩
      | cons d p2 =>
        right
        rcases (show c = d ∧ t = p2 ++ (n ++ q) by simpa using hpq) with ⟨-, h2⟩
        exact ih.mpr ⟨p2, q, by simp [h2]⟩

/-! ## C4 -/

/-- C4 counterexample.  The claim says both multi-value filters use AND
semantics; the add-on filter (`has_any_addon`, dashboard.py lines
966-971) includes a row whose cell is `"box"` when the requested values
are `["box", "zotero"]`, although `"zotero"` is not a substring of the
cell — OR semantics. -/
theorem C4_counterexample :
    Dash.has_any_addon ["box", "zotero"] (some "box") = true ∧
      ¬ (∀ c ∈ (["box", "zotero"] : List String), Py.SubstrOf c "box") := by
  refine ⟨by decide, fun hall => ?_⟩
  rcases hall "zotero" (by simp) with ⟨p, q, hpq⟩
  have := congrArg List.length hpq
  simp [String.length] at this
  omega

/-- C4 amended.  For every non-empty list of requested values the
creator filter (`has_all_creators`) keeps a row iff EVERY requested
value is a substring of the cell text, but the add-on filter
(`has_any_addon`) keeps a row iff SOME requested value is a substring
— AND semantics for creators, OR semantics for add-ons. -/
theorem C4_theorem (sel : List String) (val : Option String) (_hne : ¬ sel = []) :
    (Dash.has_all_creators sel val = true ↔
        ∀ c ∈ sel, Py.SubstrOf c (val.getD "")) ∧
      (Dash.has_any_addon sel val = true ↔
        ∃ c ∈ sel, Py.SubstrOf c (val.getD "")) := by
  constructor
  · unfold Dash.has_all_creators
    rw [List.all_eq_true]
    constructor
    · intro hall c hc
      rcases (isSub_iff c.data (val.getD "").data).mp (hall c hc) with ⟨p, q, hpq⟩
      exact ⟨p, q, hpq⟩
    · intro hall c hc
      rcases hall c hc with ⟨p, q, hpq⟩
      exact (isSub_iff c.data (val.getD "").data).mpr ⟨p, q, hpq⟩
  · unfold Dash.has_any_addon
    rw [List.any_eq_true]
    constructor
    · rintro ⟨c, hc, hsub⟩
      rcases (isSub_iff c.data (val.getD "").data).mp hsub with ⟨p, q, hpq⟩
      exact ⟨c, hc, p, q, hpq⟩
    · rintro ⟨c, hc, p, q, hpq⟩
      exact ⟨c, hc, (isSub_iff c.data (val.getD "").data).mpr ⟨p, q, hpq⟩⟩

/-- C4 witness at a concrete selection and cell. -/
theorem C4_witness :
    ¬ (["ab", "ya"] : List String) = [] ∧
      (Dash.has_all_creators ["ab", "ya"] (some "xaby") = true ↔
        ∀ c ∈ (["ab", "ya"] : List String), Py.SubstrOf c "xaby") :=
  ⟨by decide, ( C4_theorem ["ab", "ya"] (some "xaby") (by decide)).1⟩

/-- The `(total + size - 1) // size` idiom computes ceiling division. -/
theorem ceilIdiom_eq (a b : Nat) (hb : 0 < b) :
    (a + b - 1) / b = specCeilDiv a b := by
  unfold specCeilDiv
  have hd := Nat.div_add_mod a b
  set q := a / b with hq
  set r := a % b with hr
  have hrb : r < b := Nat.mod_lt _ hb
  by_cases h0 : r = 0
  · have h1 : a + b - 1 = b * q + (b - 1) := by omega
    rw [h1, Nat.mul_add_div hb, Nat.div_eq_of_lt (by omega)]
    simp [h0]
  · have h1 : a + b - 1 = b * (q + 1) + (r - 1) := by
      have : b * (q + 1) = b * q + b := by ring
      omega
    rw [h1, Nat.mul_add_div hb, Nat.div_eq_of_lt (by omega)]
    simp [h0]

/-! ## C5 -/

/-- C5 counterexample.  The claim says the Paginator always returns
`total_pages = max(1, ceil(len(view)/page_size))` with a clamped,
1-based page number; `paginate_df` (dashboard.py lines 260-266) returns
`0` total pages for an empty view (and takes an unclamped 0-based page
number), so the claim fails on it. -/
theorem C5_counterexample :
    (Dash.paginate_df ([] : List Nat) 25 1).2 = 0 ∧
      ¬ (Dash.paginate_df ([] : List Nat) 25 1).2
        = max 1 (specCeilDiv (List.length ([] : List Nat)) 25) := by
  refine ⟨by decide, by decide⟩

/-- C5 amended.  The v6 `paginate` satisfies the claim: for every view
and positive page size, `total_pages = max(1, ceil(len/size))`, the
returned page number is `min(max(1, requested), total_pages)` and hence
lies in `[1, total_pages]`, and the returned rows are the 1-based slice
`view[(page-1)*size : page*size]`.  dashboard.py's `paginate_df`
instead uses an unclamped 0-based page number and reports `0` pages for
an empty view. -/
theorem C5_theorem {α : Type} (view : List α) (page : Int) (size : Nat)
    (hs : 0 < size) :
    (V6.paginate view page size).2.2 = max 1 (specCeilDiv view.length size) ∧
      (V6.paginate view page size).2.1
        = min (max 1 page) ((V6.paginate view page size).2.2 : Int) ∧
      1 ≤ (V6.paginate view page size).2.1 ∧
      (V6.paginate view page size).2.1 ≤ ((V6.paginate view page size).2.2 : Int) ∧
      (V6.paginate view page size).1
        = (view.drop (((V6.paginate view page size).2.1.toNat - 1) * size)).take size := by
  by_cases hv : view.length = 0
  · have hres : V6.paginate view page size = (view, 1, 1) := by
      unfold V6.paginate
      rw [if_pos hv]
    have hnil : view = [] := List.length_eq_zero.mp hv
    rw [hres]
    subst hnil
    refine ⟨by simp [specCeilDiv], ?_, le_refl _, by simp, by simp⟩
    have h1 : (1 : Int) ≤ max 1 page := le_max_left _ _
    simp only [Nat.cast_one]
    omega
  · have hres : V6.paginate view page size =
        ((view.drop (((max 1 (min ((max 1 ((view.length + size - 1) / size) : Nat) : Int) page))
              - 1).toNat * size)).take size,
          max 1 (min ((max 1 ((view.length + size - 1) / size) : Nat) : Int) page),
          max 1 ((view.length + size - 1) / size)) := by
      unfold V6.paginate
      rw [if_neg hv]
    rw [hres]
    dsimp only
    set tpn : Nat := max 1 ((view.length + size - 1) / size) with htp
    have htp1 : 1 ≤ tpn := le_max_left _ _
    have htpi : (1 : Int) ≤ (tpn : Int) := by exact_mod_cast htp1
    set p : Int := max 1 (min (tpn : Int) page) with hp
    have hp1 : (1 : Int) ≤ p := le_max_left _ _
    refine ⟨by rw [htp, ceilIdiom_eq _ _ hs], ?_, hp1, ?_, ?_⟩
    · rw [hp]
      omega
    · rw [hp]
      omega
    · have : (p - 1).toNat = p.toNat - 1 := by omega
      rw [this]

/-- C5 witness: a five-element view, page size `2`, requested page
`99`. -/
theorem C5_witness :
    0 < 2 ∧
      ((V6.paginate ([10, 11, 12, 13, 14] : List Nat) 99 2).2.2
          = max 1 (specCeilDiv (List.length ([10, 11, 12, 13, 14] : List Nat)) 2) ∧
        (V6.paginate ([10, 11, 12, 13, 14] : List Nat) 99 2).2.1
          = min (max 1 99) ((V6.paginate ([10, 11, 12, 13, 14] : List Nat) 99 2).2.2 : Int) ∧
        1 ≤ (V6.paginate ([10, 11, 12, 13, 14] : List Nat) 99 2).2.1 ∧
        (V6.paginate ([10, 11, 12, 13, 14] : List Nat) 99 2).2.1
          ≤ ((V6.paginate ([10, 11, 12, 13, 14] : List Nat) 99 2).2.2 : Int) ∧
        (V6.paginate ([10, 11, 12, 13, 14] : List Nat) 99 2).1
          = (([10, 11, 12, 13, 14] : List Nat).drop
              (((V6.paginate ([10, 11, 12, 13, 14] : List Nat) 99 2).2.1.toNat - 1) * 2)).take 2) :=
  ⟨by decide, C5_theorem [10, 11, 12, 13, 14] 99 2 (by decide)⟩

/-! ## C8 -/

/-- C8 counterexample.  The claim says that whenever the discriminator
column is present but the summary row is absent, load succeeds and
every summary-row-dependent metric defaults to `0`, and that the
missing discriminator is the only fatal load condition.  Both parts
fail on the code: dashboard.py substitutes a Users-derived count for
the monthly logged-in metric (here `2`, not `0`) when the summary row
is absent, and v6's `load_data` raises `AttributeError` on a row set
that HAS the discriminator and a summary row but whose schema lacks
the `public_file_count`/`storage_gb` columns (`projects.get(col, "0")`
returns a scalar and `.fillna` on it raises). -/
theorem C8_counterexample :
    (Dash.compute_summary_metrics none
        [[("month_last_login", "2024-05")], [("month_last_login", "2024-06")]]
        [] [] []).total_logged_in_users = some 2 ∧
      ¬ (Dash.compute_summary_metrics none
          [[("month_last_login", "2024-05")], [("month_last_login", "2024-06")]]
          [] [] []).total_logged_in_users = some 0 ∧
      V6.load_data ["row_type"] [[("row_type", "summary")]] = .error "AttributeError" := by
  refine ⟨by decide, by decide, by decide⟩

/-- C8 amended.  A schema lacking the discriminator column aborts with
the descriptive `ValueError` in both v4's `ensure_row_type` (with v4's
own strip-and-BOM-only column normalization) and v6's `load_data`.
When the discriminator is present and the row set has no summary row,
the v6 load succeeds with an empty summary dict, so its summary-row-
dependent metrics render as `0`, and v4's monthly metrics on the empty
summary dict are `0` as well — but dashboard.py instead substitutes
the Users-derived `month_last_*` counts for the monthly metrics.  The
missing discriminator is also not the only fatal load condition: v6's
`load_data` raises `AttributeError` when a summary row is present but
the schema lacks `public_file_count` or `storage_gb`. -/
theorem C8_theorem (cols : List String) (rows : List Row) :
    ((cols.map V4.normCol).contains "row_type" = false →
        ∃ msg, V4.ensure_row_type cols = .error msg) ∧
      ((cols.map V4.normCol).contains "row_type" = true →
        V4.ensure_row_type cols = .ok (cols.map V4.normCol)) ∧
      ((cols.map V6.normCol).contains "row_type" = false →
        V6.load_data cols rows = .error "CSV must include a \x27row_type\x27 column.") ∧
      ((cols.map V6.normCol).contains "row_type" = true →
        (∀ r ∈ rows.map V6.renameRow, ¬ V6.rowKind r = "summary") →
        ∃ res, V6.load_data cols rows = .ok res ∧ res.summary? = none ∧
          V6.renderMonthlyLoggedIn res.summary? = 0 ∧
          V6.renderMonthlyActive res.summary? = 0 ∧
          V6.renderPublicFileTotal res.summary? = 0) ∧
      V4.monthlyLoggedIn [] = 0 ∧ V4.monthlyActive [] = 0 ∧
      (∀ (users p rg pp : List Row),
        (Dash.compute_summary_metrics none users p rg pp).total_logged_in_users
            = some (Dash.countNotna users "month_last_login" : Int) ∧
          (Dash.compute_summary_metrics none users p rg pp).total_active_users
            = some (Dash.countNotna users "month_last_active" : Int)) ∧
      (∀ (r : Row),
        (cols.map V6.normCol).contains "row_type" = true →
        ((rows.map V6.renameRow).filter
            (fun r2 => V6.rowKind r2 = "summary")).head? = some r →
        ¬ ((cols.map V6.normCol).contains "public_file_count" = true ∧
            (cols.map V6.normCol).contains "storage_gb" = true) →
        V6.load_data cols rows = .error "AttributeError") := by
  refine ⟨fun hmiss4 => ?_, fun hhave4 => ?_, fun hmiss => ?_,
    fun hhave hnosum => ?_, rfl, rfl, fun users p rg pp => ⟨rfl, rfl⟩,
    fun r hhave hsum hnc => ?_⟩
  · unfold V4.ensure_row_type
    rw [if_neg (by simp only [hmiss4]; decide)]
    exact ⟨_, rfl⟩
  · unfold V4.ensure_row_type
    rw [if_pos (by simp only [hhave4])]
  · unfold V6.load_data
    rw [if_pos (by simp only [hmiss]; decide)]
  · have hfil : (rows.map V6.renameRow).filter (fun r => V6.rowKind r = "summary") = [] := by
      rw [List.filter_eq_nil_iff]
      intro r hr
      simpa using hnosum r hr
    refine ⟨⟨none, (rows.map V6.renameRow).filter (fun r => V6.rowKind r = "project"),
      (rows.map V6.renameRow).filter (fun r => V6.rowKind r = "registration"),
      (rows.map V6.renameRow).filter (fun r => V6.rowKind r = "preprint")⟩,
      ?_, rfl, rfl, rfl, rfl⟩
    unfold V6.load_data
    rw [if_neg (by simp only [hhave]; decide)]
    simp only [hfil]
    rfl
  · unfold V6.load_data
    rw [if_neg (by simp only [hhave]; decide)]
    simp only [hsum]
    rw [if_neg hnc]

/-- C8 witness: a schema without the discriminator aborts in both
loaders; a one-row project dataset with the discriminator and no
summary row loads with all summary-row-dependent metrics `0`; a
dataset with a summary row but no derived-total columns hits the
second fatal path. -/
theorem C8_witness :
    (∃ msg, V4.ensure_row_type ["name"] = .error msg) ∧
      V4.ensure_row_type ["row_type"] = .ok (["row_type"].map V4.normCol) ∧
      V6.load_data ["name"] []
        = .error "CSV must include a \x27row_type\x27 column." ∧
      (∃ res, V6.load_data ["row_type"] [[("row_type", "project")]] = .ok res ∧
        res.summary? = none ∧
        V6.renderMonthlyLoggedIn res.summary? = 0 ∧
        V6.renderMonthlyActive res.summary? = 0 ∧
        V6.renderPublicFileTotal res.summary? = 0) ∧
      V6.load_data ["row_type"] [[("row_type", "summary")]] = .error "AttributeError" :=
  ⟨( C8_theorem ["name"] []).1 (by decide),
    ( C8_theorem ["row_type"] []).2.1 (by decide),
    ( C8_theorem ["name"] []).2.2.1 (by decide),
    ( C8_theorem ["row_type"] [[("row_type", "project")]]).2.2.2.1 (by decide) (by decide),
    ( C8_theorem ["row_type"] [[("row_type", "summary")]]).2.2.2.2.2.2.2
      [("row_type", "summary")] (by decide) (by decide) (by decide)⟩

/-! ## C10 -/

/-- `Char.ofNat` of a small scalar value round-trips through `toNat`. -/
theorem charOfNat_toNat (n : Nat) (h : n < 55296) : (Char.ofNat n).toNat = n := by
  unfold Char.ofNat
  split
  · rfl
  · rename_i hh
    exact absurd (Or.inl h) hh

/-- Lower-casing a `[a-z0-9]`-class character (either case) yields a
lower-case letter or a digit. -/
theorem lowerChar_guidChar (c : Char) (h : guidChar c = true) :
    ('a' ≤ Py.lowerChar c ∧ Py.lowerChar c ≤ 'z') ∨
      ('0' ≤ Py.lowerChar c ∧ Py.lowerChar c ≤ '9') := by
  have hc : ('a' ≤ c ∧ c ≤ 'z') ∨ ('A' ≤ c ∧ c ≤ 'Z') ∨ ('0' ≤ c ∧ c ≤ '9') := by
    simpa [guidChar, decide_eq_true_eq] using h
  unfold Py.lowerChar
  rcases hc with ⟨h1, h2⟩ | ⟨h1, h2⟩ | ⟨h1, h2⟩
  · rw [if_neg]
    · exact Or.inl ⟨h1, h2⟩
    · rintro ⟨-, hz⟩
      have : c.toNat ≤ 90 := hz
      have : 97 ≤ c.toNat := h1
      omega
  · rw [if_pos ⟨h1, h2⟩]
    have ha : 65 ≤ c.toNat := h1
    have hb : c.toNat ≤ 90 := h2
    have ht : (Char.ofNat (c.toNat + 32)).toNat = c.toNat + 32 :=
      charOfNat_toNat _ (by omega)
    left
    constructor
    · show ('a').toNat ≤ (Char.ofNat (c.toNat + 32)).toNat
      rw [ht]
      show 97 ≤ c.toNat + 32
      omega
    · show (Char.ofNat (c.toNat + 32)).toNat ≤ ('z').toNat
      rw [ht]
      show c.toNat + 32 ≤ 122
      omega
  · rw [if_neg]
    · exact Or.inr ⟨h1, h2⟩
    · rintro ⟨hz, -⟩
      have : 65 ≤ c.toNat := hz
      have : c.toNat ≤ 57 := h2
      omega

/-- A segment produced by `tryAt5` has exactly five characters, all in
the `[a-z0-9]` class (either case). -/
theorem tryAt5_spec (l seg : List Char) (h : V6.tryAt5 l = some seg) :
    seg.length = 5 ∧ seg.all guidChar = true := by
  have h2 : (if (l.take 5).length = 5 ∧ (l.take 5).all guidChar = true ∧
      tailOk (l.drop 5) = true then some (l.take 5) else none) = some seg := h
  split at h2
  · rename_i hc
    cases h2
    exact ⟨hc.1, hc.2.1⟩
  · cases h2

/-- Every segment found by `scan5` has exactly five characters, all in
the `[a-z0-9]` class. -/
theorem scan5_spec (l seg : List Char) (h : V6.scan5 l = some seg) :
    seg.length = 5 ∧ seg.all guidChar = true := by
  induction l with
  | nil => cases h
  | cons c t ih =>
    unfold V6.scan5 at h
    split at h
    · cases htry : V6.tryAt5 t with
      | none => rw [htry] at h; exact ih h
      | some s =>
        rw [htry] at h
        cases h
        exact tryAt5_spec t seg htry
    · exact ih h

/-- C10 confirmed.  For every input string, `extract_osf_guid`
(dashboard_v6.py) returns either the empty string or a token of exactly
five characters, each a lower-case letter or digit: the matched segment
(or bare GUID) is lower-cased, and segments of any other length are
never returned. -/
theorem C10_theorem (s : String) :
    V6.extract_osf_guid s = "" ∨
      ((V6.extract_osf_guid s).length = 5 ∧
        ∀ c ∈ (V6.extract_osf_guid s).data,
          ('a' ≤ c ∧ c ≤ 'z') ∨ ('0' ≤ c ∧ c ≤ '9')) := by
  unfold V6.extract_osf_guid
  by_cases h0 : s = ""
  · rw [if_pos h0]
    exact Or.inl rfl
  rw [if_neg h0]
  by_cases hfull : (Py.trim s.data).length = 5 ∧ (Py.trim s.data).all guidChar
  · rw [if_pos hfull]
    right
    constructor
    · show (Py.lowerL (Py.trim s.data)).length = 5
      rw [Py.lowerL, List.length_map]
      exact hfull.1
    · intro c hcm
      rcases List.mem_map.mp hcm with ⟨d, hd, rfl⟩
      exact lowerChar_guidChar d (List.all_eq_true.mp hfull.2 d hd)
  · rw [if_neg hfull]
    cases hscan : V6.scan5 (Py.trim s.data) with
    | none => exact Or.inl rfl
    | some seg =>
      right
      rcases scan5_spec _ _ hscan with ⟨hlen, hall⟩
      constructor
      · show (Py.lowerL seg).length = 5
        rw [Py.lowerL, List.length_map]
        exact hlen
      · intro c hcm
        rcases List.mem_map.mp hcm with ⟨d, hd, rfl⟩
        exact lowerChar_guidChar d (List.all_eq_true.mp hall d hd)

/-! ## C9 -/

/-- C9 counterexample.  The round trip
`normalize_doi (doi_url (normalize_doi x)) = normalize_doi x` fails for
non-empty inputs whose normalized DOI itself still starts with a
strippable prefix: `"doi:doi:10.1/abc"` normalizes to
`"doi:10.1/abc"`, but the round trip re-strips the `doi:` prefix and
returns `"10.1/abc"`; likewise for a doubled `https://doi.org/`
prefix. -/
theorem C9_counterexample :
    V6.normalize_doi "doi:doi:10.1/abc" = "doi:10.1/abc" ∧
      V6.normalize_doi (V6.make_doi_url (V6.normalize_doi "doi:doi:10.1/abc"))
        = "10.1/abc" ∧
      ¬ V6.normalize_doi (V6.make_doi_url (V6.normalize_doi "doi:doi:10.1/abc"))
        = V6.normalize_doi "doi:doi:10.1/abc" ∧
      ¬ V6.normalize_doi
          (V6.make_doi_url (V6.normalize_doi "https://doi.org/https://doi.org/10.1/abc"))
        = V6.normalize_doi "https://doi.org/https://doi.org/10.1/abc" := by
  refine ⟨by decide, by decide, by decide, by decide⟩

/-- The last character of a stripped string is not whitespace. -/
theorem trim_getLast_not (w : List Char) (h : ¬ Py.trim w = []) :
    ¬ Py.isSpace ((Py.trim w).getLast h) = true := by
  unfold Py.trim Py.rtrim at *
  exact List.rdropWhile_last_not _ _ h

/-- Stripping is idempotent. -/
theorem trim_trim (w : List Char) : Py.trim (Py.trim w) = Py.trim w := by
  unfold Py.trim Py.rtrim Py.ltrim
  set m := w.dropWhile Py.isSpace with hm
  have hA : (m.rdropWhile Py.isSpace).dropWhile Py.isSpace = m.rdropWhile Py.isSpace := by
    obtain ⟨t, ht⟩ := List.rdropWhile_prefix Py.isSpace m
    cases hc : m.rdropWhile Py.isSpace with
    | nil => rfl
    | cons a t2 =>
      rw [List.dropWhile_cons, if_neg ?hpa]
      case hpa =>
        intro hpa
        have hm2 : m = a :: (t2 ++ t) := by rw [← ht, hc]; rfl
        have hfix : m.dropWhile Py.isSpace = m := List.dropWhile_idempotent Py.isSpace w
        rw [hm2, List.dropWhile_cons, if_pos hpa] at hfix
        have hlen := congrArg List.length hfix
        have hle := ((List.dropWhile_suffix (p := Py.isSpace) (l := t2 ++ t))).length_le
        simp [List.length_append] at hlen hle
        omega
  rw [hA, List.rdropWhile_idempotent]

/-- The last character of a stripped string is not whitespace
(`getLast?` form). -/
theorem trim_getLastQ_not (w : List Char) (c : Char)
    (h : (Py.trim w).getLast? = some c) : ¬ Py.isSpace c = true := by
  have hne : ¬ Py.trim w = [] := by
    intro hh
    rw [hh] at h
    cases h
  have h2 : (Py.trim w).getLast? = some ((Py.trim w).getLast hne) :=
    List.getLast?_eq_getLast_of_ne_nil hne
  rw [h] at h2
  rw [Option.some.inj h2]
  exact trim_getLast_not w hne

/-- Prepending the literal `https://doi.org/` to a string whose last
character is not whitespace gives a string unchanged by stripping. -/
theorem trim_url_concat (d : List Char) (hd : ¬ d = [])
    (hlast : ∀ c, d.getLast? = some c → ¬ Py.isSpace c = true) :
    Py.trim ("https://doi.org/".data ++ d) = "https://doi.org/".data ++ d := by
  have h1 : Py.ltrim ("https://doi.org/".data ++ d)
      = "https://doi.org/".data ++ d := by
    show Py.ltrim ('h' :: ("ttps://doi.org/".data ++ d)) = _
    unfold Py.ltrim
    rw [List.dropWhile_cons, if_neg (by decide)]
    rfl
  unfold Py.trim
  rw [h1]
  unfold Py.rtrim
  refine List.rdropWhile_eq_self_iff.mpr (fun hne => ?_)
  refine hlast _ ?_
  rw [List.getLast?_eq_getLast_of_ne_nil hd]
  exact congrArg some (List.getLast_append' _ _ hd).symm

/-- Unfolding of `normDoiL` on a non-empty input. -/
theorem normDoiL_eq (l : List Char) (h : ¬ l = []) :
    V6.normDoiL l = Py.trim (V6.stripDoiColon (V6.stripHttpDoi (Py.trim l))) := by
  unfold V6.normDoiL
  rw [if_neg (by simp [List.isEmpty_iff, h])]

/-- C9 amended.  The round trip
`normalize_doi (doi_url (normalize_doi x)) = normalize_doi x` holds for
every non-empty `x` whose normalized DOI is itself free of the two
strippable prefixes — it does not start with `doi:` nor with
`http(s)://(dx.)?doi.org/` (case-insensitively); without that proviso
the outer normalization strips one more prefix layer than the inner
one, as the counterexample shows. -/
theorem C9_theorem (x : String) (hx : ¬ x = "")
    (hhttp : V6.stripHttpDoi (V6.normalize_doi x).data = (V6.normalize_doi x).data)
    (hdoi : V6.stripDoiColon (V6.normalize_doi x).data = (V6.normalize_doi x).data) :
    V6.normalize_doi (V6.make_doi_url (V6.normalize_doi x)) = V6.normalize_doi x := by
  have hxd : ¬ x.data = [] := fun hh => hx (String.ext hh)
  have hform : (V6.normalize_doi x).data
      = Py.trim (V6.stripDoiColon (V6.stripHttpDoi (Py.trim x.data))) := by
    show V6.normDoiL x.data = _
    exact normDoiL_eq x.data hxd
  by_cases hdd : V6.normalize_doi x = ""
  · rw [hdd]
    rfl
  · have hdta : ¬ (V6.normalize_doi x).data = [] := fun hh => hdd (String.ext hh)
    have htrimfix : Py.trim (V6.normalize_doi x).data = (V6.normalize_doi x).data := by
      rw [hform]
      exact trim_trim _
    have hself : V6.normalize_doi (V6.normalize_doi x) = V6.normalize_doi x := by
      apply String.ext
      show V6.normDoiL (V6.normalize_doi x).data = _
      rw [normDoiL_eq _ hdta, htrimfix, hhttp, hdoi, htrimfix]
    have hurl : V6.make_doi_url (V6.normalize_doi x)
        = "https://doi.org/" ++ V6.normalize_doi x := by
      show (if V6.normalize_doi (V6.normalize_doi x) = "" then ""
        else "https://doi.org/" ++ V6.normalize_doi (V6.normalize_doi x)) = _
      rw [hself, if_neg hdd]
    rw [hurl]
    apply String.ext
    show V6.normDoiL ("https://doi.org/" ++ V6.normalize_doi x).data = _
    rw [String.data_append]
    have hne2 : ¬ ("https://doi.org/".data ++ (V6.normalize_doi x).data) = [] := by
      simp
    rw [normDoiL_eq _ hne2]
    have hlast : ∀ c, (V6.normalize_doi x).data.getLast? = some c →
        ¬ Py.isSpace c = true := by
      intro c hc
      rw [hform] at hc
      exact trim_getLastQ_not _ _ hc
    rw [show Py.trim ("https://doi.org/".data ++ (V6.normalize_doi x).data)
        = "https://doi.org/".data ++ (V6.normalize_doi x).data
      from trim_url_concat _ hdta hlast]
    rw [show V6.stripHttpDoi ("https://doi.org/".data ++ (V6.normalize_doi x).data)
        = (V6.normalize_doi x).data from rfl]
    rw [hdoi, htrimfix]

/-- C9 witness: `x = "10.1234/xyz"`, whose normalized DOI has no
strippable prefix. -/
theorem C9_witness :
    ¬ ("10.1234/xyz" : String) = "" ∧
      V6.normalize_doi (V6.make_doi_url (V6.normalize_doi "10.1234/xyz"))
        = V6.normalize_doi "10.1234/xyz" :=
  ⟨by decide, C9_theorem "10.1234/xyz" (by decide) (by decide) (by decide)⟩
